import Mathlib

/-!
Verification of the deployment composer in `src/createFargateDeployment.ts`.

The composer is a pure function from a logical-name prefix and a
`FargateDeploymentOptions` record to a fixed record of fourteen
infrastructure resource descriptions, with cross-references and one
dependency edge wired between them.

The resource-description factories, the reference primitives (`getRef`,
`getAttribute`, `dependsOn`) and the three sibling composers
(`createFargateExecutionRole`, `createECSTaskRole`,
`createFargateTaskDefinition`) live outside this repository's source
tree; they are modelled here from the spec's collaborator contracts
(factories are pure constructors `create<Kind>(logicalName, props)`,
references are tagged pointers resolved later, `dependsOn` records an
ordering edge).  The imperative `dependsOn` call is embedded by explicit
state passing: the composer returns the list of recorded edges alongside
the resource record.
-/

namespace FargateDeployment

/-- A typed pointer from one resource's property to another resource:
either the resource's identity (`getRef`) or a named runtime attribute
(`getAttribute`).  Modelled from the spec: the Reference data type of
the external template library. -/
inductive Reference where
  | ref (target : String)
  | attr (target : String) (attrName : String)
deriving DecidableEq, Repr

/-- The logical name of the resource a reference points at. -/
def Reference.target : Reference → String
  | .ref t => t
  | .attr t _ => t

/-- Resource descriptions of every kind carry a logical name. -/
class Resource (α : Type) where
  logicalNameOf : α → String

/-- Modelled from the spec: `getRef(resource)` resolves to the
resource's identity at render time. -/
def getRef {α : Type} [Resource α] (r : α) : Reference :=
  .ref (Resource.logicalNameOf r)

/-- Modelled from the spec: `getAttribute(resource, attributeName)`
resolves to a named runtime attribute of the resource. -/
def getAttribute {α : Type} [Resource α] (r : α) (attrName : String) : Reference :=
  .attr (Resource.logicalNameOf r) attrName

/-- An explicit ordering constraint: `dependent` must be provisioned
only after `dependency` exists.  Modelled from the spec. -/
structure DependencyEdge where
  dependent : String
  dependency : String
deriving DecidableEq, Repr

/-- Modelled from the spec: `dependsOn(dependent, dependency)` records
an explicit ordering edge consulted by the renderer. -/
def dependsOn {α β : Type} [Resource α] [Resource β] (a : α) (b : β) : DependencyEdge :=
  ⟨Resource.logicalNameOf a, Resource.logicalNameOf b⟩

/-- An IAM policy grant attached to the task role; opaque to the
composer, which only passes the caller's list through. -/
structure IAMRolePolicy where
  policy : String
deriving DecidableEq, Repr

/-- The input options record of `createFargateDeployment`
(`FargateDeploymentOptions` in the source).  TypeScript optional fields
become `Option`; `Record<string, string>` becomes an association list. -/
structure FargateDeploymentOptions where
  ServiceName : String
  ImageUrl : String
  ContainerPort : Nat
  ContainerCpu : Option Nat := none
  ContainerMemory : Option Nat := none
  DesiredCount : Option Nat := none
  VpcId : String
  PrivateSubnets : List String
  PublicSubnets : List String
  DomainName : String
  ZoneName : String
  Stage : String
  CertificateArn : String
  Policies : Option (List IAMRolePolicy) := none
  Environment : Option (List (String × String)) := none
  HealthCheckUrl : Option String := none
  EnableContainerInsights : Option Bool := none
deriving DecidableEq, Repr

/-- JavaScript `x || d` on an optional number: `undefined` and `0` are
falsy, so both fall back to the default. -/
def jsOrNat : Option Nat → Nat → Nat
  | none, d => d
  | some n, d => if n = 0 then d else n

/-- JavaScript `x || d` on an optional string: `undefined` and the
empty string are falsy, so both fall back to the default. -/
def jsOrString : Option String → String → String
  | none, d => d
  | some s, d => if s = "" then d else s

/-- One entry of an ECS cluster's `ClusterSettings` list. -/
structure ClusterSetting where
  Name : String
  Value : String
deriving DecidableEq, Repr

/-- Property bag accepted by `createECSCluster` at the call site. -/
structure ECSClusterProps where
  ClusterSettings : List ClusterSetting := []
deriving DecidableEq, Repr

structure ECSClusterDescription where
  logicalName : String
  properties : ECSClusterProps
deriving DecidableEq, Repr

instance : Resource ECSClusterDescription :=
  ⟨ECSClusterDescription.logicalName⟩

/-- Modelled from the spec: resource factory
`create<Kind>(logicalName, propertyBag) → ResourceDescription`,
deterministic and pure. -/
def createECSCluster (logicalName : String) (props : ECSClusterProps) : ECSClusterDescription :=
  ⟨logicalName, props⟩

/-- One inline ingress rule of a security group. -/
structure SecurityGroupIngressRule where
  CidrIp : String
  IpProtocol : String
deriving DecidableEq, Repr

structure EC2SecurityGroupProps where
  GroupDescription : String
  VpcId : String
  SecurityGroupIngress : List SecurityGroupIngressRule := []
deriving DecidableEq, Repr

structure EC2SecurityGroupDescription where
  logicalName : String
  properties : EC2SecurityGroupProps
deriving DecidableEq, Repr

instance : Resource EC2SecurityGroupDescription :=
  ⟨EC2SecurityGroupDescription.logicalName⟩

/-- Modelled from the spec: pure resource factory. -/
def createEC2SecurityGroup (logicalName : String) (props : EC2SecurityGroupProps) :
    EC2SecurityGroupDescription :=
  ⟨logicalName, props⟩

structure EC2SecurityGroupIngressProps where
  Description : String
  GroupId : Reference
  IpProtocol : String
  SourceSecurityGroupId : Reference
deriving DecidableEq, Repr

structure EC2SecurityGroupIngressDescription where
  logicalName : String
  properties : EC2SecurityGroupIngressProps
deriving DecidableEq, Repr

instance : Resource EC2SecurityGroupIngressDescription :=
  ⟨EC2SecurityGroupIngressDescription.logicalName⟩

/-- Modelled from the spec: pure resource factory. -/
def createEC2SecurityGroupIngress (logicalName : String)
    (props : EC2SecurityGroupIngressProps) : EC2SecurityGroupIngressDescription :=
  ⟨logicalName, props⟩

/-- One `Key`/`Value` entry of the load balancer's attribute list. -/
structure LoadBalancerAttribute where
  Key : String
  Value : String
deriving DecidableEq, Repr

structure ElasticLoadBalancingV2LoadBalancerProps where
  Scheme : String
  LoadBalancerAttributes : List LoadBalancerAttribute
  Subnets : List String
  SecurityGroups : List Reference
deriving DecidableEq, Repr

structure ElasticLoadBalancingV2LoadBalancerDescription where
  logicalName : String
  properties : ElasticLoadBalancingV2LoadBalancerProps
deriving DecidableEq, Repr

instance : Resource ElasticLoadBalancingV2LoadBalancerDescription :=
  ⟨ElasticLoadBalancingV2LoadBalancerDescription.logicalName⟩

/-- Modelled from the spec: pure resource factory. -/
def createElasticLoadBalancingV2LoadBalancer (logicalName : String)
    (props : ElasticLoadBalancingV2LoadBalancerProps) :
    ElasticLoadBalancingV2LoadBalancerDescription :=
  ⟨logicalName, props⟩

structure IAMRoleDescription where
  logicalName : String
  Policies : Option (List IAMRolePolicy) := none
deriving DecidableEq, Repr

instance : Resource IAMRoleDescription :=
  ⟨IAMRoleDescription.logicalName⟩

/-- Modelled from the spec: sibling composer `createFargateExecutionRole`
(not under src/), an external collaborator assumed to produce a valid
role description under the supplied logical name. -/
def createFargateExecutionRole (logicalName : String) : IAMRoleDescription :=
  ⟨logicalName, none⟩

/-- Modelled from the spec: sibling composer `createECSTaskRole`
(not under src/), which receives the caller-supplied access-policy
list. -/
def createECSTaskRole (logicalName : String) (Policies : Option (List IAMRolePolicy)) :
    IAMRoleDescription :=
  ⟨logicalName, Policies⟩

structure LogsLogGroupProps where
  LogGroupName : String
deriving DecidableEq, Repr

structure LogsLogGroupDescription where
  logicalName : String
  properties : LogsLogGroupProps
deriving DecidableEq, Repr

instance : Resource LogsLogGroupDescription :=
  ⟨LogsLogGroupDescription.logicalName⟩

/-- Modelled from the spec: pure resource factory. -/
def createLogsLogGroup (logicalName : String) (props : LogsLogGroupProps) :
    LogsLogGroupDescription :=
  ⟨logicalName, props⟩

structure ECSTaskDefinitionDescription where
  logicalName : String
  options : FargateDeploymentOptions
  ExecutionRoleArn : Reference
  TaskRoleArn : Reference
  LogGroup : Reference
deriving DecidableEq, Repr

instance : Resource ECSTaskDefinitionDescription :=
  ⟨ECSTaskDefinitionDescription.logicalName⟩

/-- Modelled from the spec: sibling composer `createFargateTaskDefinition`
(not under src/), given the full deployment options plus resolved
execution-role ARN, task-role ARN and log-group reference (the source
spreads the options record and adds the three references). -/
def createFargateTaskDefinition (logicalName : String)
    (options : FargateDeploymentOptions)
    (ExecutionRoleArn TaskRoleArn LogGroup : Reference) :
    ECSTaskDefinitionDescription :=
  ⟨logicalName, options, ExecutionRoleArn, TaskRoleArn, LogGroup⟩

structure ElasticLoadBalancingV2TargetGroupProps where
  HealthCheckIntervalSeconds : Nat
  HealthCheckPath : String
  HealthCheckProtocol : String
  HealthCheckTimeoutSeconds : Nat
  HealthyThresholdCount : Nat
  Port : Nat
  Protocol : String
  TargetType : String
  UnhealthyThresholdCount : Nat
  VpcId : String
deriving DecidableEq, Repr

structure ElasticLoadBalancingV2TargetGroupDescription where
  logicalName : String
  properties : ElasticLoadBalancingV2TargetGroupProps
deriving DecidableEq, Repr

instance : Resource ElasticLoadBalancingV2TargetGroupDescription :=
  ⟨ElasticLoadBalancingV2TargetGroupDescription.logicalName⟩

/-- Modelled from the spec: pure resource factory. -/
def createElasticLoadBalancingV2TargetGroup (logicalName : String)
    (props : ElasticLoadBalancingV2TargetGroupProps) :
    ElasticLoadBalancingV2TargetGroupDescription :=
  ⟨logicalName, props⟩

/-- One default action of a listener; the TypeScript field `Type` is
rendered `ActionType` here because `Type` is reserved in Lean. -/
structure ListenerAction where
  TargetGroupArn : Reference
  ActionType : String
deriving DecidableEq, Repr

structure ListenerCertificate where
  CertificateArn : String
deriving DecidableEq, Repr

structure ElasticLoadBalancingV2ListenerProps where
  DefaultActions : List ListenerAction
  LoadBalancerArn : Reference
  Port : Nat
  Protocol : String
  Certificates : List ListenerCertificate
deriving DecidableEq, Repr

structure ElasticLoadBalancingV2ListenerDescription where
  logicalName : String
  properties : ElasticLoadBalancingV2ListenerProps
deriving DecidableEq, Repr

instance : Resource ElasticLoadBalancingV2ListenerDescription :=
  ⟨ElasticLoadBalancingV2ListenerDescription.logicalName⟩

/-- Modelled from the spec: pure resource factory. -/
def createElasticLoadBalancingV2Listener (logicalName : String)
    (props : ElasticLoadBalancingV2ListenerProps) :
    ElasticLoadBalancingV2ListenerDescription :=
  ⟨logicalName, props⟩

structure DeploymentConfiguration where
  MaximumPercent : Nat
  MinimumHealthyPercent : Nat
deriving DecidableEq, Repr

structure AwsvpcConfiguration where
  SecurityGroups : List Reference
  Subnets : List String
deriving DecidableEq, Repr

structure NetworkConfiguration where
  AwsvpcConfiguration : AwsvpcConfiguration
deriving DecidableEq, Repr

/-- One load-balancer registration of a service. -/
structure ServiceLoadBalancer where
  ContainerName : String
  ContainerPort : Nat
  TargetGroupArn : Reference
deriving DecidableEq, Repr

structure ECSServiceProps where
  Cluster : Reference
  LaunchType : String
  DeploymentConfiguration : DeploymentConfiguration
  DesiredCount : Nat
  NetworkConfiguration : NetworkConfiguration
  TaskDefinition : Reference
  LoadBalancers : List ServiceLoadBalancer
deriving DecidableEq, Repr

structure ECSServiceDescription where
  logicalName : String
  properties : ECSServiceProps
deriving DecidableEq, Repr

instance : Resource ECSServiceDescription :=
  ⟨ECSServiceDescription.logicalName⟩

/-- Modelled from the spec: pure resource factory. -/
def createECSService (logicalName : String) (props : ECSServiceProps) :
    ECSServiceDescription :=
  ⟨logicalName, props⟩

/-- The DNS record's alias target; the source sets `HostedZoneId` and
`DNSName` from load-balancer attributes. -/
structure AliasTarget where
  HostedZoneId : Reference
  DNSName : Reference
  EvaluateTargetHealth : Bool
deriving DecidableEq, Repr

/-- Route 53 record-set properties; the TypeScript field `Type` is
rendered `RecordType` here because `Type` is reserved in Lean. -/
structure Route53RecordSetProps where
  Name : String
  RecordType : String
  HostedZoneName : String
  AliasTarget : AliasTarget
deriving DecidableEq, Repr

structure Route53RecordSetDescription where
  logicalName : String
  properties : Route53RecordSetProps
deriving DecidableEq, Repr

instance : Resource Route53RecordSetDescription :=
  ⟨Route53RecordSetDescription.logicalName⟩

/-- Modelled from the spec: pure resource factory. -/
def createRoute53RecordSet (logicalName : String) (props : Route53RecordSetProps) :
    Route53RecordSetDescription :=
  ⟨logicalName, props⟩

/-- The output record of `createFargateDeployment`
(`FargateDeploymentResources` in the source): fourteen named roles. -/
structure FargateDeploymentResources where
  cluster : ECSClusterDescription
  containerSecurityGroup : EC2SecurityGroupDescription
  loadBalancerSecurityGroup : EC2SecurityGroupDescription
  albIngress : EC2SecurityGroupIngressDescription
  selfIngress : EC2SecurityGroupIngressDescription
  loadBalancer : ElasticLoadBalancingV2LoadBalancerDescription
  executionRole : IAMRoleDescription
  taskRole : IAMRoleDescription
  task : ECSTaskDefinitionDescription
  targetGroup : ElasticLoadBalancingV2TargetGroupDescription
  service : ECSServiceDescription
  listener : ElasticLoadBalancingV2ListenerDescription
  logGroup : LogsLogGroupDescription
  recordset : Route53RecordSetDescription
deriving DecidableEq, Repr

/-- The composer of `src/createFargateDeployment.ts`, translated
construct-for-construct.  The single imperative `dependsOn(service,
listener)` call is returned as an explicit list of recorded edges. -/
def createFargateDeployment (name : String) (options : FargateDeploymentOptions) :
    FargateDeploymentResources × List DependencyEdge :=
  let cluster := createECSCluster (name ++ "Cluster")
    (match options.EnableContainerInsights with
     | some true => { ClusterSettings := [{ Name := "containerInsights", Value := "enabled" }] }
     | _ => {})
  let containerSecurityGroup := createEC2SecurityGroup (name ++ "ContainerSecurityGroup")
    { GroupDescription := "Access to the Fargate containers"
      VpcId := options.VpcId }
  let loadBalancerSecurityGroup := createEC2SecurityGroup (name ++ "LoadBalancerSecurityGroup")
    { GroupDescription := "Access to the public facing load balancer"
      VpcId := options.VpcId
      SecurityGroupIngress := [{ CidrIp := "0.0.0.0/0", IpProtocol := "-1" }] }
  let albIngress := createEC2SecurityGroupIngress (name ++ "ALBIngress")
    { Description := "Ingress from the public ALB"
      GroupId := getRef containerSecurityGroup
      IpProtocol := "-1"
      SourceSecurityGroupId := getRef loadBalancerSecurityGroup }
  let selfIngress := createEC2SecurityGroupIngress (name ++ "SelfIngress")
    { Description := "Ingress from other containers in the same security group"
      GroupId := getRef containerSecurityGroup
      IpProtocol := "-1"
      SourceSecurityGroupId := getRef containerSecurityGroup }
  let loadBalancer := createElasticLoadBalancingV2LoadBalancer (name ++ "LoadBalancer")
    { Scheme := "internet-facing"
      LoadBalancerAttributes := [{ Key := "idle_timeout.timeout_seconds", Value := "30" }]
      Subnets := options.PublicSubnets
      SecurityGroups := [getRef loadBalancerSecurityGroup] }
  let executionRole := createFargateExecutionRole (name ++ "ExecutionRole")
  let taskRole := createECSTaskRole (name ++ "TaskRole") options.Policies
  let logGroup := createLogsLogGroup (name ++ "LogGroup")
    { LogGroupName := name }
  let task := createFargateTaskDefinition (name ++ "Task") options
    (getAttribute executionRole "Arn")
    (getAttribute taskRole "Arn")
    (getRef logGroup)
  let targetGroup := createElasticLoadBalancingV2TargetGroup (name ++ "TargetGroup")
    { HealthCheckIntervalSeconds := 10
      HealthCheckPath := jsOrString options.HealthCheckUrl "/"
      HealthCheckProtocol := "HTTP"
      HealthCheckTimeoutSeconds := 5
      HealthyThresholdCount := 2
      Port := options.ContainerPort
      Protocol := "HTTP"
      TargetType := "ip"
      UnhealthyThresholdCount := 2
      VpcId := options.VpcId }
  let listener := createElasticLoadBalancingV2Listener (name ++ "Listener")
    { DefaultActions := [{ TargetGroupArn := getRef targetGroup, ActionType := "forward" }]
      LoadBalancerArn := getRef loadBalancer
      Port := 443
      Protocol := "HTTPS"
      Certificates := [{ CertificateArn := options.CertificateArn }] }
  let service := createECSService (name ++ "Service")
    { Cluster := getRef cluster
      LaunchType := "FARGATE"
      DeploymentConfiguration := { MaximumPercent := 200, MinimumHealthyPercent := 75 }
      DesiredCount := jsOrNat options.DesiredCount 2
      NetworkConfiguration :=
        { AwsvpcConfiguration :=
            { SecurityGroups := [getRef containerSecurityGroup]
              Subnets := options.PrivateSubnets } }
      TaskDefinition := getRef task
      LoadBalancers :=
        [{ ContainerName := options.ServiceName
           ContainerPort := options.ContainerPort
           TargetGroupArn := getRef targetGroup }] }
  let edges := [dependsOn service listener]
  let recordset := createRoute53RecordSet (name ++ "RecordSet")
    { Name := options.DomainName
      RecordType := "A"
      HostedZoneName := options.ZoneName
      AliasTarget :=
        { HostedZoneId := getAttribute loadBalancer "CanonicalHostedZoneID"
          DNSName := getAttribute loadBalancer "DNSName"
          EvaluateTargetHealth := true } }
  (⟨cluster, containerSecurityGroup, loadBalancerSecurityGroup, albIngress,
    selfIngress, loadBalancer, executionRole, taskRole, task, targetGroup,
    service, listener, logGroup, recordset⟩, edges)

/-- The fourteen fixed role suffixes, in construction order. -/
def roleSuffixes : List String :=
  ["Cluster", "ContainerSecurityGroup", "LoadBalancerSecurityGroup",
   "ALBIngress", "SelfIngress", "LoadBalancer", "ExecutionRole", "TaskRole",
   "LogGroup", "Task", "TargetGroup", "Listener", "Service", "RecordSet"]

/-- The logical names of the fourteen resources, in construction order. -/
def logicalNames (r : FargateDeploymentResources) : List String :=
  [r.cluster.logicalName, r.containerSecurityGroup.logicalName,
   r.loadBalancerSecurityGroup.logicalName, r.albIngress.logicalName,
   r.selfIngress.logicalName, r.loadBalancer.logicalName,
   r.executionRole.logicalName, r.taskRole.logicalName,
   r.logGroup.logicalName, r.task.logicalName, r.targetGroup.logicalName,
   r.listener.logicalName, r.service.logicalName, r.recordset.logicalName]

/-- Every cross-reference placed in the returned resource descriptions,
collected field by field from the source. -/
def allRefs (r : FargateDeploymentResources) : List Reference :=
  [r.albIngress.properties.GroupId, r.albIngress.properties.SourceSecurityGroupId,
   r.selfIngress.properties.GroupId, r.selfIngress.properties.SourceSecurityGroupId]
  ++ r.loadBalancer.properties.SecurityGroups
  ++ [r.task.ExecutionRoleArn, r.task.TaskRoleArn, r.task.LogGroup]
  ++ r.listener.properties.DefaultActions.map ListenerAction.TargetGroupArn
  ++ [r.listener.properties.LoadBalancerArn]
  ++ [r.service.properties.Cluster]
  ++ r.service.properties.NetworkConfiguration.AwsvpcConfiguration.SecurityGroups
  ++ [r.service.properties.TaskDefinition]
  ++ r.service.properties.LoadBalancers.map ServiceLoadBalancer.TargetGroupArn
  ++ [r.recordset.properties.AliasTarget.HostedZoneId,
      r.recordset.properties.AliasTarget.DNSName]

/-- The fourteen resources in construction order, each paired with the
references its own description holds, collected field by field from the
source. -/
def constructionOrder (r : FargateDeploymentResources) : List (String × List Reference) :=
  [(r.cluster.logicalName, []),
   (r.containerSecurityGroup.logicalName, []),
   (r.loadBalancerSecurityGroup.logicalName, []),
   (r.albIngress.logicalName,
    [r.albIngress.properties.GroupId, r.albIngress.properties.SourceSecurityGroupId]),
   (r.selfIngress.logicalName,
    [r.selfIngress.properties.GroupId, r.selfIngress.properties.SourceSecurityGroupId]),
   (r.loadBalancer.logicalName, r.loadBalancer.properties.SecurityGroups),
   (r.executionRole.logicalName, []),
   (r.taskRole.logicalName, []),
   (r.logGroup.logicalName, []),
   (r.task.logicalName, [r.task.ExecutionRoleArn, r.task.TaskRoleArn, r.task.LogGroup]),
   (r.targetGroup.logicalName, []),
   (r.listener.logicalName,
    r.listener.properties.DefaultActions.map ListenerAction.TargetGroupArn
      ++ [r.listener.properties.LoadBalancerArn]),
   (r.service.logicalName,
    [r.service.properties.Cluster]
      ++ r.service.properties.NetworkConfiguration.AwsvpcConfiguration.SecurityGroups
      ++ [r.service.properties.TaskDefinition]
      ++ r.service.properties.LoadBalancers.map ServiceLoadBalancer.TargetGroupArn),
   (r.recordset.logicalName,
    [r.recordset.properties.AliasTarget.HostedZoneId,
     r.recordset.properties.AliasTarget.DNSName])]

/-- Each resource's references target only resources constructed
strictly earlier in the list (no forward reference). -/
def noForwardRefs : List String → List (String × List Reference) → Prop
  | _, [] => True
  | seen, (nm, refs) :: rest =>
      (∀ ref ∈ refs, ref.target ∈ seen) ∧ noForwardRefs (seen ++ [nm]) rest

/-- A concrete, fully populated options record used by witnesses and
counterexamples. -/
def sampleOptions : FargateDeploymentOptions :=
  { ServiceName := "api"
    ImageUrl := "example/api:latest"
    ContainerPort := 8080
    VpcId := "vpc-1"
    PrivateSubnets := ["subnet-a"]
    PublicSubnets := ["subnet-b"]
    DomainName := "api.example.com"
    ZoneName := "example.com."
    Stage := "prod"
    CertificateArn := "arn:cert:1" }

/-- Helper: the fourteen logical names are exactly the prefix followed by
each fixed role suffix, in construction order. -/
lemma logicalNames_eq (name : String) (options : FargateDeploymentOptions) :
    logicalNames (createFargateDeployment name options).1 =
      roleSuffixes.map (fun s => name ++ s) :=
  rfl

/-- C1: every resource returned by `createFargateDeployment` has logical
name exactly the prefix concatenated with its fixed role suffix, so for
any two calls with distinct prefixes and identical options the logical
names differ only in the prefix and the set of role suffixes is
identical. -/
theorem C1_logical_names (p q : String) (options : FargateDeploymentOptions) :
    logicalNames (createFargateDeployment p options).1 =
      roleSuffixes.map (fun s => p ++ s)
    ∧ logicalNames (createFargateDeployment q options).1 =
      roleSuffixes.map (fun s => q ++ s) :=
  ⟨logicalNames_eq p options, logicalNames_eq q options⟩

/-- C5 counterexample: at prefix "Api" the log group's logical name is
"ApiLogGroup" while its LogGroupName property is "Api", so the claimed
equality between the two fails. -/
theorem C5_counterexample :
    (createFargateDeployment "Api" sampleOptions).1.logGroup.logicalName ≠
      (createFargateDeployment "Api" sampleOptions).1.logGroup.properties.LogGroupName := by
  decide

/-- C5 (amended): the log group's logical name is the prefix followed by
"LogGroup", and its LogGroupName property is the un-prefixed deployment
name rather than the prefixed logical id. -/
theorem C5_log_group (name : String) (options : FargateDeploymentOptions) :
    (createFargateDeployment name options).1.logGroup.logicalName = name ++ "LogGroup"
    ∧ (createFargateDeployment name options).1.logGroup.properties.LogGroupName = name :=
  ⟨rfl, rfl⟩

/-- C6: exactly one dependency edge is recorded, and it makes the
service of this invocation depend on the listener of this same
invocation. -/
theorem C6_dependency_edge (name : String) (options : FargateDeploymentOptions) :
    (createFargateDeployment name options).2 =
      [{ dependent := (createFargateDeployment name options).1.service.logicalName
         dependency := (createFargateDeployment name options).1.listener.logicalName }]
    ∧ (createFargateDeployment name options).1.service.logicalName = name ++ "Service"
    ∧ (createFargateDeployment name options).1.listener.logicalName = name ++ "Listener" :=
  ⟨rfl, rfl, rfl⟩

/-- C7: `createFargateDeployment` is a total pure function, so two
invocations with equal arguments produce structurally identical result
records (including the recorded dependency edges). -/
theorem C7_deterministic (n₁ n₂ : String) (o₁ o₂ : FargateDeploymentOptions)
    (hn : n₁ = n₂) (ho : o₁ = o₂) :
    createFargateDeployment n₁ o₁ = createFargateDeployment n₂ o₂ := by
  subst hn; subst ho; rfl

/-- Witness for C7 at a concrete prefix and options record. -/
theorem C7_deterministic_witness :
    createFargateDeployment "Api" sampleOptions = createFargateDeployment "Api" sampleOptions :=
  C7_deterministic "Api" "Api" sampleOptions sampleOptions rfl rfl

/-- C9: the target group's VpcId property is the caller-supplied VpcId. -/
theorem C9_target_group_vpc (name : String) (options : FargateDeploymentOptions) :
    (createFargateDeployment name options).1.targetGroup.properties.VpcId = options.VpcId :=
  rfl

/-- C10: the service's LoadBalancers list is exactly one entry, whose
ContainerName is the caller-supplied ServiceName and whose ContainerPort
is the caller-supplied ContainerPort. -/
theorem C10_service_load_balancers (name : String) (options : FargateDeploymentOptions) :
    (createFargateDeployment name options).1.service.properties.LoadBalancers =
      [{ ContainerName := options.ServiceName
         ContainerPort := options.ContainerPort
         TargetGroupArn := getRef (createFargateDeployment name options).1.targetGroup }] :=
  rfl

/-- C2 counterexample: with DesiredCount supplied as 0 the service's
DesiredCount is 2, not the caller-supplied value, because the source
computes `options.DesiredCount || 2` and 0 is falsy in JavaScript. -/
theorem C2_counterexample :
    (createFargateDeployment "Api"
        { sampleOptions with DesiredCount := some 0 }).1.service.properties.DesiredCount = 2
    ∧ (createFargateDeployment "Api"
        { sampleOptions with DesiredCount := some 0 }).1.service.properties.DesiredCount ≠ 0 := by
  exact ⟨rfl, by decide⟩

/-- C2 (amended): the service has LaunchType "FARGATE", deployment
bounds 200 maximum / 75 minimum healthy percent, DesiredCount equal to
the caller-supplied DesiredCount when it is supplied and nonzero and 2
when it is omitted or supplied as 0, awsvpc networking using exactly the
reference to the same-call container security group and the supplied
private subnets, the same-call task definition, and a single
load-balancer registration against the same-call target group under the
given container name and port. -/
theorem C2_service_description (name : String) (options : FargateDeploymentOptions) :
    (createFargateDeployment name options).1.service.properties.LaunchType = "FARGATE"
    ∧ (createFargateDeployment name options).1.service.properties.DeploymentConfiguration =
        { MaximumPercent := 200, MinimumHealthyPercent := 75 }
    ∧ (createFargateDeployment name options).1.service.properties.DesiredCount =
        (match options.DesiredCount with
         | none => 2
         | some k => if k = 0 then 2 else k)
    ∧ (createFargateDeployment name options).1.service.properties.NetworkConfiguration =
        { AwsvpcConfiguration :=
            { SecurityGroups :=
                [getRef (createFargateDeployment name options).1.containerSecurityGroup]
              Subnets := options.PrivateSubnets } }
    ∧ (createFargateDeployment name options).1.service.properties.TaskDefinition =
        getRef (createFargateDeployment name options).1.task
    ∧ (createFargateDeployment name options).1.service.properties.LoadBalancers =
        [{ ContainerName := options.ServiceName
           ContainerPort := options.ContainerPort
           TargetGroupArn := getRef (createFargateDeployment name options).1.targetGroup }] := by
  refine ⟨rfl, rfl, ?_, rfl, rfl, rfl⟩
  cases hd : options.DesiredCount with
  | none => simp [createFargateDeployment, createECSService, jsOrNat, hd]
  | some k => simp [createFargateDeployment, createECSService, jsOrNat, hd]

/-- C3 counterexample: with HealthCheckUrl supplied as the empty string
the target group's HealthCheckPath is "/", not the caller-supplied
value, because the source computes `options.HealthCheckUrl || '/'` and
the empty string is falsy in JavaScript. -/
theorem C3_counterexample :
    (createFargateDeployment "Api"
        { sampleOptions with HealthCheckUrl := some "" }).1.targetGroup.properties.HealthCheckPath
      = "/"
    ∧ (createFargateDeployment "Api"
        { sampleOptions with HealthCheckUrl := some "" }).1.targetGroup.properties.HealthCheckPath
      ≠ "" := by
  exact ⟨rfl, by decide⟩

/-- C3 (amended): the target group has HealthCheckIntervalSeconds 10,
HealthCheckTimeoutSeconds 5, HealthyThresholdCount 2,
UnhealthyThresholdCount 2, HealthCheckProtocol "HTTP", Protocol "HTTP",
TargetType "ip", Port equal to the supplied container port, and
HealthCheckPath equal to the caller-supplied HealthCheckUrl when it is
supplied and nonempty, and "/" when it is omitted or supplied as the
empty string. -/
theorem C3_target_group_description (name : String) (options : FargateDeploymentOptions) :
    (createFargateDeployment name options).1.targetGroup.properties =
      { HealthCheckIntervalSeconds := 10
        HealthCheckPath :=
          (match options.HealthCheckUrl with
           | none => "/"
           | some s => if s = "" then "/" else s)
        HealthCheckProtocol := "HTTP"
        HealthCheckTimeoutSeconds := 5
        HealthyThresholdCount := 2
        Port := options.ContainerPort
        Protocol := "HTTP"
        TargetType := "ip"
        UnhealthyThresholdCount := 2
        VpcId := options.VpcId } := by
  cases hh : options.HealthCheckUrl with
  | none => simp [createFargateDeployment, createElasticLoadBalancingV2TargetGroup, jsOrString, hh]
  | some s => simp [createFargateDeployment, createElasticLoadBalancingV2TargetGroup, jsOrString, hh]

/-- C4: with EnableContainerInsights true the cluster's settings list
contains a containerInsights=enabled entry; with false or omitted the
settings list is empty. -/
theorem C4_container_insights (name : String) (options : FargateDeploymentOptions) :
    (options.EnableContainerInsights = some true →
      ({ Name := "containerInsights", Value := "enabled" } : ClusterSetting) ∈
        (createFargateDeployment name options).1.cluster.properties.ClusterSettings)
    ∧ (options.EnableContainerInsights = some false ∨ options.EnableContainerInsights = none →
      (createFargateDeployment name options).1.cluster.properties.ClusterSettings = []) := by
  constructor
  · intro h
    simp [createFargateDeployment, createECSCluster, h]
  · intro h
    rcases h with h | h <;> simp [createFargateDeployment, createECSCluster, h]

/-- Witness for C4: both branches at concrete options records. -/
theorem C4_container_insights_witness :
    (({ Name := "containerInsights", Value := "enabled" } : ClusterSetting) ∈
      (createFargateDeployment "Api"
        { sampleOptions with EnableContainerInsights := some true
          }).1.cluster.properties.ClusterSettings)
    ∧ (createFargateDeployment "Api" sampleOptions).1.cluster.properties.ClusterSettings = [] :=
  ⟨(C4_container_insights "Api"
      { sampleOptions with EnableContainerInsights := some true }).1 rfl,
   (C4_container_insights "Api" sampleOptions).2 (Or.inr rfl)⟩

/-- Helper: the cross-references placed by one call, as an explicit
list (in the field order of `allRefs`). -/
lemma allRefs_eq (name : String) (options : FargateDeploymentOptions) :
    allRefs (createFargateDeployment name options).1 =
      [.ref (name ++ "ContainerSecurityGroup"), .ref (name ++ "LoadBalancerSecurityGroup"),
       .ref (name ++ "ContainerSecurityGroup"), .ref (name ++ "ContainerSecurityGroup"),
       .ref (name ++ "LoadBalancerSecurityGroup"),
       .attr (name ++ "ExecutionRole") "Arn", .attr (name ++ "TaskRole") "Arn",
       .ref (name ++ "LogGroup"),
       .ref (name ++ "TargetGroup"), .ref (name ++ "LoadBalancer"),
       .ref (name ++ "Cluster"), .ref (name ++ "ContainerSecurityGroup"),
       .ref (name ++ "Task"), .ref (name ++ "TargetGroup"),
       .attr (name ++ "LoadBalancer") "CanonicalHostedZoneID",
       .attr (name ++ "LoadBalancer") "DNSName"] :=
  rfl

/-- C8: every cross-reference in the returned descriptions targets a
resource of the same invocation, no resource is referenced before its
description is constructed, the listener forwards to the same-call
target group and load balancer, and the DNS record's alias target uses
the same-call load balancer's CanonicalHostedZoneID and DNSName
attributes. -/
theorem C8_same_call_references (name : String) (options : FargateDeploymentOptions) :
    (∀ ref ∈ allRefs (createFargateDeployment name options).1,
        Reference.target ref ∈ logicalNames (createFargateDeployment name options).1)
    ∧ noForwardRefs [] (constructionOrder (createFargateDeployment name options).1)
    ∧ (createFargateDeployment name options).1.listener.properties.DefaultActions =
        [{ TargetGroupArn := getRef (createFargateDeployment name options).1.targetGroup
           ActionType := "forward" }]
    ∧ (createFargateDeployment name options).1.listener.properties.LoadBalancerArn =
        getRef (createFargateDeployment name options).1.loadBalancer
    ∧ (createFargateDeployment name options).1.recordset.properties.AliasTarget.HostedZoneId =
        getAttribute (createFargateDeployment name options).1.loadBalancer "CanonicalHostedZoneID"
    ∧ (createFargateDeployment name options).1.recordset.properties.AliasTarget.DNSName =
        getAttribute (createFargateDeployment name options).1.loadBalancer "DNSName" := by
  refine ⟨?_, ?_, rfl, rfl, rfl, rfl⟩
  · intro ref href
    rw [allRefs_eq] at href
    rw [logicalNames_eq]
    fin_cases href <;> simp [Reference.target, roleSuffixes]
  · have hco : constructionOrder (createFargateDeployment name options).1 =
      [(name ++ "Cluster", []),
       (name ++ "ContainerSecurityGroup", []),
       (name ++ "LoadBalancerSecurityGroup", []),
       (name ++ "ALBIngress",
        [.ref (name ++ "ContainerSecurityGroup"), .ref (name ++ "LoadBalancerSecurityGroup")]),
       (name ++ "SelfIngress",
        [.ref (name ++ "ContainerSecurityGroup"), .ref (name ++ "ContainerSecurityGroup")]),
       (name ++ "LoadBalancer", [.ref (name ++ "LoadBalancerSecurityGroup")]),
       (name ++ "ExecutionRole", []),
       (name ++ "TaskRole", []),
       (name ++ "LogGroup", []),
       (name ++ "Task",
        [.attr (name ++ "ExecutionRole") "Arn", .attr (name ++ "TaskRole") "Arn",
         .ref (name ++ "LogGroup")]),
       (name ++ "TargetGroup", []),
       (name ++ "Listener",
        [.ref (name ++ "TargetGroup"), .ref (name ++ "LoadBalancer")]),
       (name ++ "Service",
        [.ref (name ++ "Cluster"), .ref (name ++ "ContainerSecurityGroup"),
         .ref (name ++ "Task"), .ref (name ++ "TargetGroup")]),
       (name ++ "RecordSet",
        [.attr (name ++ "LoadBalancer") "CanonicalHostedZoneID",
         .attr (name ++ "LoadBalancer") "DNSName"])] := rfl
    rw [hco]
    simp [noForwardRefs, Reference.target]

/-- Witness for C8: a concrete reference of a concrete call targets one
of that call's logical names. -/
theorem C8_same_call_references_witness :
    Reference.target (Reference.ref "ApiContainerSecurityGroup") ∈
      logicalNames (createFargateDeployment "Api" sampleOptions).1 :=
  (C8_same_call_references "Api" sampleOptions).1
    (Reference.ref "ApiContainerSecurityGroup") (by decide)

end FargateDeployment
